import Mathlib

/-!
Shallow embedding of `backend/recipes/models.py` (Django model layer of the
foodgram application).  Each Django model becomes a Lean structure; the
database is a record of row lists; every create / update / delete operation
is translated from the declarative field options and `Meta` constraints of
the source:

* `CharField(unique=...)`, `UniqueConstraint(fields=[...])`  → uniqueness
  checks that fail with `DBError.uniquenessError` at insertion time;
* field validators (`MinValueValidator(1)`, `HEXColorValidator`,
  `PositiveSmallIntegerField` bounds 0..32767, required fields, max_length)
  → checks that fail with `DBError.validationError` before persistence;
* `on_delete=CASCADE` / `on_delete=PROTECT` → cascading removal of
  dependent rows, resp. `DBError.protectedError` while dependents exist;
* `Meta.ordering` → the default listing order.
-/

set_option autoImplicit false

namespace Foodgram

/-- A user row.  `get_user_model()` is external to this file, so a user is
identified by its primary key only. -/
abbrev UserId := Nat

/-- Translation of `class Tag(models.Model)`: `name` (unique, max_length 200),
`color` (unique, max_length 7, HEXColorValidator), `slug` (unique SlugField,
max_length 200). -/
structure Tag where
  id : Nat
  name : String
  color : String
  slug : String
deriving DecidableEq, Repr

/-- Translation of `class MeasurementUnit(models.Model)`: `name` (unique, max_length 30). -/
structure MeasurementUnit where
  id : Nat
  name : String
deriving DecidableEq, Repr

/-- Translation of `class Ingredient(models.Model)`: `name` (max_length 200) and a
`ForeignKey(MeasurementUnit, on_delete=PROTECT)`. -/
structure Ingredient where
  id : Nat
  name : String
  measurement_unit : Nat
deriving DecidableEq, Repr

/-- Translation of `class Recipe(BaseModel)`: author FK (CASCADE), name, text, image,
`cooking_time = PositiveSmallIntegerField()`, plus the inherited
`created_at` / `updated_at` timestamps. -/
structure Recipe where
  id : Nat
  author : UserId
  name : String
  text : String
  image : String
  cooking_time : Int
  created_at : Nat
  updated_at : Nat
deriving DecidableEq, Repr

/-- Translation of `class RecipeTag(models.Model)`: FKs to Recipe and Tag, both CASCADE,
with `UniqueConstraint(fields=['recipe', 'tag'])`. -/
structure RecipeTag where
  id : Nat
  recipe : Nat
  tag : Nat
deriving DecidableEq, Repr

/-- Translation of `class RecipeIngredient(models.Model)`: FKs to Recipe and Ingredient,
both CASCADE, `amount = PositiveSmallIntegerField(validators=[MinValueValidator(1)])`,
with `UniqueConstraint(fields=['recipe', 'ingredient'])`. -/
structure RecipeIngredient where
  id : Nat
  recipe : Nat
  ingredient : Nat
  amount : Int
deriving DecidableEq, Repr

/-- Translation of `class FavoriteRecipe(BaseRecipeToUser)`: user FK (CASCADE), recipe FK
(CASCADE), `created_at` only (`updated_at = None`), with
`UniqueConstraint(fields=['user', 'recipe'])`. -/
structure FavoriteRecipe where
  id : Nat
  user : UserId
  recipe : Nat
  created_at : Nat
deriving DecidableEq, Repr

/-- Translation of `class ShoppingCart(BaseRecipeToUser)`: same shape as `FavoriteRecipe`,
with its own `UniqueConstraint(fields=['user', 'recipe'])`. -/
structure ShoppingCart where
  id : Nat
  user : UserId
  recipe : Nat
  created_at : Nat
deriving DecidableEq, Repr

/-- The whole persisted state: one list of rows per model table. -/
structure DB where
  users : List UserId
  tags : List Tag
  units : List MeasurementUnit
  ingredients : List Ingredient
  recipes : List Recipe
  recipeTags : List RecipeTag
  recipeIngredients : List RecipeIngredient
  favorites : List FavoriteRecipe
  carts : List ShoppingCart
deriving DecidableEq, Repr

/-- The empty database. -/
def DB.empty : DB :=
  { users := [], tags := [], units := [], ingredients := [], recipes := [],
    recipeTags := [], recipeIngredients := [], favorites := [], carts := [] }

/-- Errors surfaced by the storage layer (spec §7 taxonomy): validation
errors before persistence, uniqueness violations at insertion, protected
foreign keys on deletion, and dangling foreign keys. -/
inductive DBError where
  | validationError
  | uniquenessError
  | protectedError
  | fkError
deriving DecidableEq, Repr

/-! ### Field validation -/

/-- One hexadecimal digit (either case). -/
def isHexDigit (c : Char) : Bool :=
  c.isDigit || ('a' ≤ c && c ≤ 'f') || ('A' ≤ c && c ≤ 'F')

/-- Modelled from the spec: the module `recipes/validators.py` that defines
`HEXColorValidator` is not part of the given source; the spec says the tag
color "must match 3- or 6-digit hex color syntax, e.g. `#aa0000`". -/
def hexColorValid (s : String) : Bool :=
  match s.data with
  | '#' :: rest => (rest.length == 3 || rest.length == 6) && rest.all isHexDigit
  | _ => false

/-- A character allowed by Django's `SlugField` default validator:
ASCII letters, digits, hyphens, underscores. -/
def isSlugChar (c : Char) : Bool :=
  c.isAlphanum || c == '-' || c == '_'

/-- Validation of a `SlugField`: nonempty string of slug characters. -/
def slugValid (s : String) : Bool :=
  decide (0 < s.length) && s.data.all isSlugChar

/-- A required `CharField(max_length=n)`: nonempty, at most `n` characters. -/
def charFieldValid (n : Nat) (s : String) : Bool :=
  decide (0 < s.length) && decide (s.length ≤ n)

/-- Bounds of a `PositiveSmallIntegerField`: Django validates 0 ≤ v ≤ 32767. -/
def positiveSmallIntValid (v : Int) : Bool :=
  decide (0 ≤ v) && decide (v ≤ 32767)

/-- Field validation for a `Tag` (name, color with `HEXColorValidator`,
slug), as run by `full_clean` before persistence. -/
def tagFieldsValid (name color slug : String) : Bool :=
  charFieldValid 200 name && charFieldValid 7 color && hexColorValid color
    && charFieldValid 200 slug && slugValid slug

/-- Field validation for a `MeasurementUnit`. -/
def unitFieldsValid (name : String) : Bool :=
  charFieldValid 30 name

/-- Field validation for an `Ingredient`. -/
def ingredientFieldsValid (name : String) : Bool :=
  charFieldValid 200 name

/-- Field validation for a `Recipe`: required name/text/image and the
`PositiveSmallIntegerField` bounds on `cooking_time` (the source attaches
no `MinValueValidator` to `cooking_time`). -/
def recipeFieldsValid (name text image : String) (cooking_time : Int) : Bool :=
  charFieldValid 200 name && decide (0 < text.length) && decide (0 < image.length)
    && positiveSmallIntValid cooking_time

/-- Field validation for a `RecipeIngredient.amount`:
`PositiveSmallIntegerField` bounds plus `MinValueValidator(1)`. -/
def amountValid (amount : Int) : Bool :=
  positiveSmallIntValid amount && decide (1 ≤ amount)

/-! ### Uniqueness-constraint checks -/

/-- A new `Tag` row collides when any existing row shares its primary key or
one of the three `unique=True` columns `name`, `color`, `slug`. -/
def tagConflict (ts : List Tag) (t : Tag) : Bool :=
  ts.any (fun u => u.id == t.id || u.name == t.name || u.color == t.color
    || u.slug == t.slug)

/-- A new `MeasurementUnit` collides on primary key or unique `name`. -/
def unitConflict (ms : List MeasurementUnit) (m : MeasurementUnit) : Bool :=
  ms.any (fun u => u.id == m.id || u.name == m.name)

/-- A new `Ingredient` collides on primary key or on the
`unique_ingredient` constraint over `(name, measurement_unit)`. -/
def ingredientConflict (is_ : List Ingredient) (i : Ingredient) : Bool :=
  is_.any (fun u => u.id == i.id
    || (u.name == i.name && u.measurement_unit == i.measurement_unit))

/-- A new `RecipeTag` collides on primary key or on the
`unique_recipe_tag` constraint over `(recipe, tag)`. -/
def recipeTagConflict (rts : List RecipeTag) (rt : RecipeTag) : Bool :=
  rts.any (fun u => u.id == rt.id || (u.recipe == rt.recipe && u.tag == rt.tag))

/-- A new `RecipeIngredient` collides on primary key or on the
`unique_recipe_ingredient` constraint over `(recipe, ingredient)`. -/
def recipeIngredientConflict (ris : List RecipeIngredient) (ri : RecipeIngredient) : Bool :=
  ris.any (fun u => u.id == ri.id
    || (u.recipe == ri.recipe && u.ingredient == ri.ingredient))

/-- A new `FavoriteRecipe` collides on primary key or on the
`unique_favorite_recipe` constraint over `(user, recipe)`. -/
def favoriteConflict (fs : List FavoriteRecipe) (f : FavoriteRecipe) : Bool :=
  fs.any (fun u => u.id == f.id || (u.user == f.user && u.recipe == f.recipe))

/-- A new `ShoppingCart` row collides on primary key or on the
`unique_shopping_cart_recipe` constraint over `(user, recipe)`. -/
def cartConflict (cs : List ShoppingCart) (c : ShoppingCart) : Bool :=
  cs.any (fun u => u.id == c.id || (u.user == c.user && u.recipe == c.recipe))

/-! ### Create operations

Each create runs field validation first (`full_clean`, before persistence),
then the uniqueness constraints, then foreign-key existence, and finally
appends the row. -/

/-- Create a user (external model: only its primary key matters here). -/
def createUser (db : DB) (u : UserId) : Except DBError DB :=
  if db.users.any (fun v => v == u) then .error .uniquenessError
  else .ok { db with users := db.users ++ [u] }

/-- Insert a `Tag` row. -/
def createTag (db : DB) (t : Tag) : Except DBError DB :=
  if !tagFieldsValid t.name t.color t.slug then .error .validationError
  else if tagConflict db.tags t then .error .uniquenessError
  else .ok { db with tags := db.tags ++ [t] }

/-- Insert a `MeasurementUnit` row. -/
def createMeasurementUnit (db : DB) (m : MeasurementUnit) : Except DBError DB :=
  if !unitFieldsValid m.name then .error .validationError
  else if unitConflict db.units m then .error .uniquenessError
  else .ok { db with units := db.units ++ [m] }

/-- Insert an `Ingredient` row. -/
def createIngredient (db : DB) (i : Ingredient) : Except DBError DB :=
  if !ingredientFieldsValid i.name then .error .validationError
  else if ingredientConflict db.ingredients i then .error .uniquenessError
  else if !db.units.any (fun m => m.id == i.measurement_unit) then .error .fkError
  else .ok { db with ingredients := db.ingredients ++ [i] }

/-- Insert a `Recipe` row; `auto_now_add` / `auto_now` set both timestamps
to the insertion time `now`. -/
def createRecipe (db : DB) (r : Recipe) (now : Nat) : Except DBError DB :=
  if !recipeFieldsValid r.name r.text r.image r.cooking_time then
    .error .validationError
  else if db.recipes.any (fun u => u.id == r.id) then .error .uniquenessError
  else if !db.users.any (fun v => v == r.author) then .error .fkError
  else .ok { db with recipes := db.recipes ++ [{ r with created_at := now, updated_at := now }] }

/-- Insert a `RecipeTag` join row. -/
def createRecipeTag (db : DB) (rt : RecipeTag) : Except DBError DB :=
  if recipeTagConflict db.recipeTags rt then .error .uniquenessError
  else if !db.recipes.any (fun r => r.id == rt.recipe) then .error .fkError
  else if !db.tags.any (fun t => t.id == rt.tag) then .error .fkError
  else .ok { db with recipeTags := db.recipeTags ++ [rt] }

/-- Insert a `RecipeIngredient` join row. -/
def createRecipeIngredient (db : DB) (ri : RecipeIngredient) : Except DBError DB :=
  if !amountValid ri.amount then .error .validationError
  else if recipeIngredientConflict db.recipeIngredients ri then .error .uniquenessError
  else if !db.recipes.any (fun r => r.id == ri.recipe) then .error .fkError
  else if !db.ingredients.any (fun i => i.id == ri.ingredient) then .error .fkError
  else .ok { db with recipeIngredients := db.recipeIngredients ++ [ri] }

/-- Insert a `FavoriteRecipe` row; `auto_now_add` sets `created_at`. -/
def createFavorite (db : DB) (f : FavoriteRecipe) (now : Nat) : Except DBError DB :=
  if favoriteConflict db.favorites f then .error .uniquenessError
  else if !db.users.any (fun v => v == f.user) then .error .fkError
  else if !db.recipes.any (fun r => r.id == f.recipe) then .error .fkError
  else .ok { db with favorites := db.favorites ++ [{ f with created_at := now }] }

/-- Insert a `ShoppingCart` row; `auto_now_add` sets `created_at`. -/
def createCart (db : DB) (c : ShoppingCart) (now : Nat) : Except DBError DB :=
  if cartConflict db.carts c then .error .uniquenessError
  else if !db.users.any (fun v => v == c.user) then .error .fkError
  else if !db.recipes.any (fun r => r.id == c.recipe) then .error .fkError
  else .ok { db with carts := db.carts ++ [{ c with created_at := now }] }

/-! ### Update operations -/

/-- Update the editable fields of the `Tag` with primary key `tid`.
Uniqueness is checked against every other row. -/
def updateTag (db : DB) (tid : Nat) (name color slug : String) : Except DBError DB :=
  if !db.tags.any (fun u => u.id == tid) then .error .fkError
  else if !tagFieldsValid name color slug then .error .validationError
  else if db.tags.any (fun u => u.id != tid
      && (u.name == name || u.color == color || u.slug == slug)) then
    .error .uniquenessError
  else .ok { db with tags := db.tags.map (fun u =>
    if u.id == tid then { u with name := name, color := color, slug := slug } else u) }

/-- Update the editable fields of the `Ingredient` with primary key `iid`. -/
def updateIngredient (db : DB) (iid : Nat) (name : String) (munit : Nat) :
    Except DBError DB :=
  if !db.ingredients.any (fun u => u.id == iid) then .error .fkError
  else if !ingredientFieldsValid name then .error .validationError
  else if db.ingredients.any (fun u => u.id != iid
      && (u.name == name && u.measurement_unit == munit)) then
    .error .uniquenessError
  else if !db.units.any (fun m => m.id == munit) then .error .fkError
  else .ok { db with ingredients := db.ingredients.map (fun u =>
    if u.id == iid then { u with name := name, measurement_unit := munit } else u) }

/-- Update the editable fields of the `Recipe` with primary key `rid`;
`auto_now` refreshes `updated_at`. -/
def updateRecipe (db : DB) (rid : Nat) (name text image : String)
    (cooking_time : Int) (now : Nat) : Except DBError DB :=
  if !db.recipes.any (fun u => u.id == rid) then .error .fkError
  else if !recipeFieldsValid name text image cooking_time then .error .validationError
  else .ok { db with recipes := db.recipes.map (fun u =>
    if u.id == rid then
      { u with name := name, text := text, image := image,
               cooking_time := cooking_time, updated_at := now }
    else u) }

/-- Update the `amount` of the `RecipeIngredient` with primary key `riid`. -/
def updateRecipeIngredientAmount (db : DB) (riid : Nat) (amount : Int) :
    Except DBError DB :=
  if !db.recipeIngredients.any (fun u => u.id == riid) then .error .fkError
  else if !amountValid amount then .error .validationError
  else .ok { db with recipeIngredients := db.recipeIngredients.map (fun u =>
    if u.id == riid then { u with amount := amount } else u) }

/-! ### Delete operations -/

/-- Delete every `Recipe` whose id lies in `rids`, cascading
(`on_delete=CASCADE` on every FK pointing at `Recipe`) into
`RecipeTag`, `RecipeIngredient`, `FavoriteRecipe` and `ShoppingCart`. -/
def deleteRecipes (db : DB) (rids : List Nat) : DB :=
  { db with
    recipes := db.recipes.filter (fun r => !rids.contains r.id),
    recipeTags := db.recipeTags.filter (fun rt => !rids.contains rt.recipe),
    recipeIngredients := db.recipeIngredients.filter (fun ri => !rids.contains ri.recipe),
    favorites := db.favorites.filter (fun f => !rids.contains f.recipe),
    carts := db.carts.filter (fun c => !rids.contains c.recipe) }

/-- Delete one `Recipe` row by primary key. -/
def deleteRecipe (db : DB) (rid : Nat) : DB :=
  deleteRecipes db [rid]

/-- Delete a user: `Recipe.author`, `BaseRecipeToUser.user` are all
`on_delete=CASCADE`, so the user's recipes (with their own cascades) and
the user's favorite / cart rows disappear. -/
def deleteUser (db : DB) (uid : UserId) : DB :=
  let rids := (db.recipes.filter (fun r => r.author == uid)).map (fun r => r.id)
  let db1 := deleteRecipes db rids
  { db1 with
    users := db1.users.filter (fun v => v != uid),
    favorites := db1.favorites.filter (fun f => f.user != uid),
    carts := db1.carts.filter (fun c => c.user != uid) }

/-- Delete a `Tag`: `RecipeTag.tag` is `on_delete=CASCADE`. -/
def deleteTag (db : DB) (tid : Nat) : DB :=
  { db with
    tags := db.tags.filter (fun t => t.id != tid),
    recipeTags := db.recipeTags.filter (fun rt => rt.tag != tid) }

/-- Delete a `MeasurementUnit`: `Ingredient.measurement_unit` is
`on_delete=PROTECT`, so the deletion fails while any `Ingredient`
references the unit. -/
def deleteMeasurementUnit (db : DB) (mid : Nat) : Except DBError DB :=
  if db.ingredients.any (fun i => i.measurement_unit == mid) then
    .error .protectedError
  else .ok { db with units := db.units.filter (fun m => m.id != mid) }

/-- Delete an `Ingredient`: `RecipeIngredient.ingredient` is
`on_delete=CASCADE`. -/
def deleteIngredient (db : DB) (iid : Nat) : DB :=
  { db with
    ingredients := db.ingredients.filter (fun i => i.id != iid),
    recipeIngredients := db.recipeIngredients.filter (fun ri => ri.ingredient != iid) }

/-- Delete a `RecipeTag` join row by primary key. -/
def deleteRecipeTagRow (db : DB) (rtid : Nat) : DB :=
  { db with recipeTags := db.recipeTags.filter (fun rt => rt.id != rtid) }

/-- Delete a `RecipeIngredient` join row by primary key. -/
def deleteRecipeIngredientRow (db : DB) (riid : Nat) : DB :=
  { db with recipeIngredients := db.recipeIngredients.filter (fun ri => ri.id != riid) }

/-- Delete a `FavoriteRecipe` row by primary key. -/
def deleteFavorite (db : DB) (fid : Nat) : DB :=
  { db with favorites := db.favorites.filter (fun f => f.id != fid) }

/-- Delete a `ShoppingCart` row by primary key. -/
def deleteCart (db : DB) (cid : Nat) : DB :=
  { db with carts := db.carts.filter (fun c => c.id != cid) }

/-! ### Default listings (`Meta.ordering`) -/

/-- Ordering `Recipe.Meta.ordering = ('-created_at',)`: newest first. -/
def recipeNewer (a b : Recipe) : Prop :=
  b.created_at ≤ a.created_at

instance : DecidableRel recipeNewer :=
  fun a b => inferInstanceAs (Decidable (b.created_at ≤ a.created_at))

instance : IsTotal Recipe recipeNewer :=
  ⟨fun a b => Nat.le_total b.created_at a.created_at⟩

instance : IsTrans Recipe recipeNewer :=
  ⟨fun _ _ _ h1 h2 => Nat.le_trans h2 h1⟩

/-- Ordering `Tag.Meta.ordering = ('name',)`: alphabetical by name. -/
def tagNameLe (a b : Tag) : Prop :=
  a.name ≤ b.name

instance : DecidableRel tagNameLe :=
  fun a b => inferInstanceAs (Decidable (a.name ≤ b.name))

instance : IsTotal Tag tagNameLe :=
  ⟨fun a b => le_total a.name b.name⟩

instance : IsTrans Tag tagNameLe :=
  ⟨fun _ _ _ h1 h2 => le_trans h1 h2⟩

/-- Ordering `Ingredient.Meta.ordering = ('name',)`: alphabetical by name. -/
def ingredientNameLe (a b : Ingredient) : Prop :=
  a.name ≤ b.name

instance : DecidableRel ingredientNameLe :=
  fun a b => inferInstanceAs (Decidable (a.name ≤ b.name))

instance : IsTotal Ingredient ingredientNameLe :=
  ⟨fun a b => le_total a.name b.name⟩

instance : IsTrans Ingredient ingredientNameLe :=
  ⟨fun _ _ _ h1 h2 => le_trans h1 h2⟩

/-- Default `Recipe` listing: the table ordered newest-`created_at`-first. -/
def listRecipes (db : DB) : List Recipe :=
  List.insertionSort recipeNewer db.recipes

/-- Default `Tag` listing: the table ordered by `name`. -/
def listTags (db : DB) : List Tag :=
  List.insertionSort tagNameLe db.tags

/-- Default `Ingredient` listing: the table ordered by `name`. -/
def listIngredients (db : DB) : List Ingredient :=
  List.insertionSort ingredientNameLe db.ingredients

/-! ### Reachable states

`Step db db'` holds when one successful model operation turns `db` into
`db'`; `Reachable` closes the empty database under all operations. -/

/-- One successful create / update / delete. -/
inductive Step : DB → DB → Prop where
  | newUser (db : DB) (u : UserId) (db' : DB)
      (h : createUser db u = Except.ok db') : Step db db'
  | newTag (db : DB) (t : Tag) (db' : DB)
      (h : createTag db t = Except.ok db') : Step db db'
  | newMeasurementUnit (db : DB) (m : MeasurementUnit) (db' : DB)
      (h : createMeasurementUnit db m = Except.ok db') : Step db db'
  | newIngredient (db : DB) (i : Ingredient) (db' : DB)
      (h : createIngredient db i = Except.ok db') : Step db db'
  | newRecipe (db : DB) (r : Recipe) (now : Nat) (db' : DB)
      (h : createRecipe db r now = Except.ok db') : Step db db'
  | newRecipeTag (db : DB) (rt : RecipeTag) (db' : DB)
      (h : createRecipeTag db rt = Except.ok db') : Step db db'
  | newRecipeIngredient (db : DB) (ri : RecipeIngredient) (db' : DB)
      (h : createRecipeIngredient db ri = Except.ok db') : Step db db'
  | newFavorite (db : DB) (f : FavoriteRecipe) (now : Nat) (db' : DB)
      (h : createFavorite db f now = Except.ok db') : Step db db'
  | newCart (db : DB) (c : ShoppingCart) (now : Nat) (db' : DB)
      (h : createCart db c now = Except.ok db') : Step db db'
  | modTag (db : DB) (tid : Nat) (name color slug : String) (db' : DB)
      (h : updateTag db tid name color slug = Except.ok db') : Step db db'
  | modIngredient (db : DB) (iid : Nat) (name : String) (munit : Nat) (db' : DB)
      (h : updateIngredient db iid name munit = Except.ok db') : Step db db'
  | modRecipe (db : DB) (rid : Nat) (name text image : String)
      (cooking_time : Int) (now : Nat) (db' : DB)
      (h : updateRecipe db rid name text image cooking_time now = Except.ok db') :
      Step db db'
  | modRecipeIngredientAmount (db : DB) (riid : Nat) (amount : Int) (db' : DB)
      (h : updateRecipeIngredientAmount db riid amount = Except.ok db') : Step db db'
  | delUser (db : DB) (uid : UserId) : Step db (deleteUser db uid)
  | delTag (db : DB) (tid : Nat) : Step db (deleteTag db tid)
  | delMeasurementUnit (db : DB) (mid : Nat) (db' : DB)
      (h : deleteMeasurementUnit db mid = Except.ok db') : Step db db'
  | delIngredient (db : DB) (iid : Nat) : Step db (deleteIngredient db iid)
  | delRecipe (db : DB) (rid : Nat) : Step db (deleteRecipe db rid)
  | delRecipeTagRow (db : DB) (rtid : Nat) : Step db (deleteRecipeTagRow db rtid)
  | delRecipeIngredientRow (db : DB) (riid : Nat) :
      Step db (deleteRecipeIngredientRow db riid)
  | delFavorite (db : DB) (fid : Nat) : Step db (deleteFavorite db fid)
  | delCart (db : DB) (cid : Nat) : Step db (deleteCart db cid)

/-- Database states reachable from the empty database by model operations. -/
def Reachable (db : DB) : Prop :=
  Relation.ReflTransGen Step DB.empty db

/-! ### Inversion lemmas: what a successful operation did -/

theorem createUser_ok {db : DB} {u : UserId} {db' : DB}
    (h : createUser db u = Except.ok db') :
    db' = { db with users := db.users ++ [u] } := by
  unfold createUser at h
  cases hc : db.users.any (fun v => v == u) with
  | true => rw [hc] at h; simp at h
  | false => rw [hc] at h; simp at h; exact h.symm

theorem createTag_ok {db : DB} {t : Tag} {db' : DB}
    (h : createTag db t = Except.ok db') :
    tagFieldsValid t.name t.color t.slug = true ∧ tagConflict db.tags t = false ∧
      db' = { db with tags := db.tags ++ [t] } := by
  unfold createTag at h
  cases hv : tagFieldsValid t.name t.color t.slug with
  | false => rw [hv] at h; simp at h
  | true =>
    rw [hv] at h
    cases hc : tagConflict db.tags t with
    | true => rw [hc] at h; simp at h
    | false => rw [hc] at h; simp at h; exact ⟨rfl, rfl, h.symm⟩

theorem createMeasurementUnit_ok {db : DB} {m : MeasurementUnit} {db' : DB}
    (h : createMeasurementUnit db m = Except.ok db') :
    db' = { db with units := db.units ++ [m] } := by
  unfold createMeasurementUnit at h
  cases hv : unitFieldsValid m.name with
  | false => rw [hv] at h; simp at h
  | true =>
    rw [hv] at h
    cases hc : unitConflict db.units m with
    | true => rw [hc] at h; simp at h
    | false => rw [hc] at h; simp at h; exact h.symm

theorem createIngredient_ok {db : DB} {i : Ingredient} {db' : DB}
    (h : createIngredient db i = Except.ok db') :
    ingredientFieldsValid i.name = true ∧
      ingredientConflict db.ingredients i = false ∧
      db' = { db with ingredients := db.ingredients ++ [i] } := by
  unfold createIngredient at h
  cases hv : ingredientFieldsValid i.name with
  | false => rw [hv] at h; simp at h
  | true =>
    rw [hv] at h
    cases hc : ingredientConflict db.ingredients i with
    | true => rw [hc] at h; simp at h
    | false =>
      rw [hc] at h
      cases hf : db.units.any (fun m => m.id == i.measurement_unit) with
      | false => rw [hf] at h; simp at h
      | true => rw [hf] at h; simp at h; exact ⟨rfl, rfl, h.symm⟩

theorem createRecipe_ok {db : DB} {r : Recipe} {now : Nat} {db' : DB}
    (h : createRecipe db r now = Except.ok db') :
    recipeFieldsValid r.name r.text r.image r.cooking_time = true ∧
      db' = { db with recipes :=
        db.recipes ++ [{ r with created_at := now, updated_at := now }] } := by
  unfold createRecipe at h
  cases hv : recipeFieldsValid r.name r.text r.image r.cooking_time with
  | false => rw [hv] at h; simp at h
  | true =>
    rw [hv] at h
    cases hc : db.recipes.any (fun u => u.id == r.id) with
    | true => rw [hc] at h; simp at h
    | false =>
      rw [hc] at h
      cases hf : db.users.any (fun v => v == r.author) with
      | false => rw [hf] at h; simp at h
      | true => rw [hf] at h; simp at h; exact ⟨rfl, h.symm⟩

theorem createRecipeTag_ok {db : DB} {rt : RecipeTag} {db' : DB}
    (h : createRecipeTag db rt = Except.ok db') :
    db' = { db with recipeTags := db.recipeTags ++ [rt] } := by
  unfold createRecipeTag at h
  cases hc : recipeTagConflict db.recipeTags rt with
  | true => rw [hc] at h; simp at h
  | false =>
    rw [hc] at h
    cases hf : db.recipes.any (fun r => r.id == rt.recipe) with
    | false => rw [hf] at h; simp at h
    | true =>
      rw [hf] at h
      cases hg : db.tags.any (fun t => t.id == rt.tag) with
      | false => rw [hg] at h; simp at h
      | true => rw [hg] at h; simp at h; exact h.symm

theorem createRecipeIngredient_ok {db : DB} {ri : RecipeIngredient} {db' : DB}
    (h : createRecipeIngredient db ri = Except.ok db') :
    amountValid ri.amount = true ∧
      db' = { db with recipeIngredients := db.recipeIngredients ++ [ri] } := by
  unfold createRecipeIngredient at h
  cases hv : amountValid ri.amount with
  | false => rw [hv] at h; simp at h
  | true =>
    rw [hv] at h
    cases hc : recipeIngredientConflict db.recipeIngredients ri with
    | true => rw [hc] at h; simp at h
    | false =>
      rw [hc] at h
      cases hf : db.recipes.any (fun r => r.id == ri.recipe) with
      | false => rw [hf] at h; simp at h
      | true =>
        rw [hf] at h
        cases hg : db.ingredients.any (fun i => i.id == ri.ingredient) with
        | false => rw [hg] at h; simp at h
        | true => rw [hg] at h; simp at h; exact ⟨rfl, h.symm⟩

theorem createFavorite_ok {db : DB} {f : FavoriteRecipe} {now : Nat} {db' : DB}
    (h : createFavorite db f now = Except.ok db') :
    db' = { db with favorites := db.favorites ++ [{ f with created_at := now }] } := by
  unfold createFavorite at h
  cases hc : favoriteConflict db.favorites f with
  | true => rw [hc] at h; simp at h
  | false =>
    rw [hc] at h
    cases hf : db.users.any (fun v => v == f.user) with
    | false => rw [hf] at h; simp at h
    | true =>
      rw [hf] at h
      cases hg : db.recipes.any (fun r => r.id == f.recipe) with
      | false => rw [hg] at h; simp at h
      | true => rw [hg] at h; simp at h; exact h.symm

theorem createCart_ok {db : DB} {c : ShoppingCart} {now : Nat} {db' : DB}
    (h : createCart db c now = Except.ok db') :
    db' = { db with carts := db.carts ++ [{ c with created_at := now }] } := by
  unfold createCart at h
  cases hc : cartConflict db.carts c with
  | true => rw [hc] at h; simp at h
  | false =>
    rw [hc] at h
    cases hf : db.users.any (fun v => v == c.user) with
    | false => rw [hf] at h; simp at h
    | true =>
      rw [hf] at h
      cases hg : db.recipes.any (fun r => r.id == c.recipe) with
      | false => rw [hg] at h; simp at h
      | true => rw [hg] at h; simp at h; exact h.symm

theorem updateTag_ok {db : DB} {tid : Nat} {name color slug : String} {db' : DB}
    (h : updateTag db tid name color slug = Except.ok db') :
    tagFieldsValid name color slug = true ∧
      db.tags.any (fun u => u.id != tid
        && (u.name == name || u.color == color || u.slug == slug)) = false ∧
      db' = { db with tags := db.tags.map (fun u =>
        if u.id == tid then { u with name := name, color := color, slug := slug }
        else u) } := by
  unfold updateTag at h
  cases he : db.tags.any (fun u => u.id == tid) with
  | false => rw [he] at h; simp at h
  | true =>
    rw [he] at h
    cases hv : tagFieldsValid name color slug with
    | false => rw [hv] at h; simp at h
    | true =>
      rw [hv] at h
      cases hc : db.tags.any (fun u => u.id != tid
          && (u.name == name || u.color == color || u.slug == slug)) with
      | true => rw [hc] at h; simp at h
      | false => rw [hc] at h; simp at h; exact ⟨rfl, rfl, by simpa using h.symm⟩

theorem updateIngredient_ok {db : DB} {iid : Nat} {name : String} {munit : Nat}
    {db' : DB} (h : updateIngredient db iid name munit = Except.ok db') :
    ingredientFieldsValid name = true ∧
      db.ingredients.any (fun u => u.id != iid
        && (u.name == name && u.measurement_unit == munit)) = false ∧
      db' = { db with ingredients := db.ingredients.map (fun u =>
        if u.id == iid then { u with name := name, measurement_unit := munit }
        else u) } := by
  unfold updateIngredient at h
  cases he : db.ingredients.any (fun u => u.id == iid) with
  | false => rw [he] at h; simp at h
  | true =>
    rw [he] at h
    cases hv : ingredientFieldsValid name with
    | false => rw [hv] at h; simp at h
    | true =>
      rw [hv] at h
      cases hc : db.ingredients.any (fun u => u.id != iid
          && (u.name == name && u.measurement_unit == munit)) with
      | true => rw [hc] at h; simp at h
      | false =>
        rw [hc] at h
        cases hf : db.units.any (fun m => m.id == munit) with
        | false => rw [hf] at h; simp at h
        | true => rw [hf] at h; simp at h; exact ⟨rfl, rfl, by simpa using h.symm⟩

theorem updateRecipe_ok {db : DB} {rid : Nat} {name text image : String}
    {cooking_time : Int} {now : Nat} {db' : DB}
    (h : updateRecipe db rid name text image cooking_time now = Except.ok db') :
    recipeFieldsValid name text image cooking_time = true ∧
      db' = { db with recipes := db.recipes.map (fun u =>
        if u.id == rid then
          { u with name := name, text := text, image := image,
                   cooking_time := cooking_time, updated_at := now }
        else u) } := by
  unfold updateRecipe at h
  cases he : db.recipes.any (fun u => u.id == rid) with
  | false => rw [he] at h; simp at h
  | true =>
    rw [he] at h
    cases hv : recipeFieldsValid name text image cooking_time with
    | false => rw [hv] at h; simp at h
    | true => rw [hv] at h; simp at h; exact ⟨rfl, by simpa using h.symm⟩

theorem updateRecipeIngredientAmount_ok {db : DB} {riid : Nat} {amount : Int}
    {db' : DB} (h : updateRecipeIngredientAmount db riid amount = Except.ok db') :
    amountValid amount = true ∧
      db' = { db with recipeIngredients := db.recipeIngredients.map (fun u =>
        if u.id == riid then { u with amount := amount } else u) } := by
  unfold updateRecipeIngredientAmount at h
  cases he : db.recipeIngredients.any (fun u => u.id == riid) with
  | false => rw [he] at h; simp at h
  | true =>
    rw [he] at h
    cases hv : amountValid amount with
    | false => rw [hv] at h; simp at h
    | true => rw [hv] at h; simp at h; exact ⟨rfl, by simpa using h.symm⟩

theorem deleteMeasurementUnit_ok {db : DB} {mid : Nat} {db' : DB}
    (h : deleteMeasurementUnit db mid = Except.ok db') :
    db' = { db with units := db.units.filter (fun m => m.id != mid) } := by
  unfold deleteMeasurementUnit at h
  cases hc : db.ingredients.any (fun i => i.measurement_unit == mid) with
  | true => rw [hc] at h; simp at h
  | false => rw [hc] at h; simp at h; exact (by simpa using h.symm)

/-! ### Table invariants preserved by every operation -/

/-- The `Tag` table keeps distinct primary keys and pairwise-distinct
`name`, `color`, `slug` columns. -/
def TagsUnique (ts : List Tag) : Prop :=
  ts.Pairwise (fun a b =>
    a.id ≠ b.id ∧ a.name ≠ b.name ∧ a.color ≠ b.color ∧ a.slug ≠ b.slug)

/-- The `Ingredient` table keeps distinct primary keys and pairwise-distinct
`(name, measurement_unit)` pairs. -/
def IngredientsUnique (is_ : List Ingredient) : Prop :=
  is_.Pairwise (fun a b =>
    a.id ≠ b.id ∧ ¬(a.name = b.name ∧ a.measurement_unit = b.measurement_unit))

/-- Combined invariant: tag uniqueness, ingredient-pair uniqueness, and the
`PositiveSmallIntegerField` bounds on every stored `cooking_time` and
`amount`. -/
def Inv (db : DB) : Prop :=
  TagsUnique db.tags ∧ IngredientsUnique db.ingredients ∧
    (∀ r ∈ db.recipes, 0 ≤ r.cooking_time ∧ r.cooking_time ≤ 32767) ∧
    (∀ ri ∈ db.recipeIngredients, 0 ≤ ri.amount ∧ ri.amount ≤ 32767)

theorem cooking_time_bounds {nm tx im : String} {ct : Int}
    (h : recipeFieldsValid nm tx im ct = true) : 0 ≤ ct ∧ ct ≤ 32767 := by
  simp [recipeFieldsValid, positiveSmallIntValid, charFieldValid] at h
  omega

theorem amount_bounds {v : Int} (h : amountValid v = true) :
    0 ≤ v ∧ v ≤ 32767 := by
  simp [amountValid, positiveSmallIntValid] at h
  omega

theorem tagsUnique_append {ts : List Tag} {t : Tag} (h : TagsUnique ts)
    (hc : tagConflict ts t = false) : TagsUnique (ts ++ [t]) := by
  rw [TagsUnique, List.pairwise_append]
  refine ⟨h, by simp, ?_⟩
  intro a ha b hb
  rw [List.mem_singleton] at hb
  subst hb
  simp only [tagConflict, List.any_eq_false] at hc
  have hx := hc a ha
  simp at hx
  tauto

theorem tagsUnique_update {ts : List Tag} {tid : Nat} {nm col sl : String}
    (h : TagsUnique ts)
    (hc : ts.any (fun u => u.id != tid
      && (u.name == nm || u.color == col || u.slug == sl)) = false) :
    TagsUnique (ts.map (fun u =>
      if u.id == tid then { u with name := nm, color := col, slug := sl }
      else u)) := by
  have hc' : ∀ u ∈ ts, u.id ≠ tid → u.name ≠ nm ∧ u.color ≠ col ∧ u.slug ≠ sl := by
    rw [List.any_eq_false] at hc
    intro u hu hne
    have hx := hc u hu
    simp [hne] at hx
    tauto
  rw [TagsUnique, List.pairwise_map]
  refine List.Pairwise.imp_of_mem ?_ h
  intro a b ha hb hab
  obtain ⟨hid, hnm, hcol, hsl⟩ := hab
  cases ha1 : (a.id == tid) <;> cases hb1 : (b.id == tid)
  · simp only [ha1, hb1, Bool.false_eq_true, if_false]
    exact ⟨hid, hnm, hcol, hsl⟩
  · have ha2 : a.id ≠ tid := by simpa using ha1
    have ha' := hc' a ha ha2
    simp only [ha1, hb1, Bool.false_eq_true, if_false, if_true]
    exact ⟨hid, ha'.1, ha'.2.1, ha'.2.2⟩
  · have hb2 : b.id ≠ tid := by simpa using hb1
    have hb' := hc' b hb hb2
    simp only [ha1, hb1, Bool.false_eq_true, if_false, if_true]
    exact ⟨hid, fun e => hb'.1 e.symm, fun e => hb'.2.1 e.symm,
      fun e => hb'.2.2 e.symm⟩
  · have ha2 : a.id = tid := by simpa using ha1
    have hb2 : b.id = tid := by simpa using hb1
    exact absurd (ha2.trans hb2.symm) hid

theorem ingredientsUnique_append {is_ : List Ingredient} {i : Ingredient}
    (h : IngredientsUnique is_) (hc : ingredientConflict is_ i = false) :
    IngredientsUnique (is_ ++ [i]) := by
  rw [IngredientsUnique, List.pairwise_append]
  refine ⟨h, by simp, ?_⟩
  intro a ha b hb
  rw [List.mem_singleton] at hb
  subst hb
  simp only [ingredientConflict, List.any_eq_false] at hc
  have hx := hc a ha
  simp at hx
  tauto

theorem ingredientsUnique_update {is_ : List Ingredient} {iid : Nat}
    {nm : String} {mu : Nat} (h : IngredientsUnique is_)
    (hc : is_.any (fun u => u.id != iid
      && (u.name == nm && u.measurement_unit == mu)) = false) :
    IngredientsUnique (is_.map (fun u =>
      if u.id == iid then { u with name := nm, measurement_unit := mu }
      else u)) := by
  have hc' : ∀ u ∈ is_, u.id ≠ iid → ¬(u.name = nm ∧ u.measurement_unit = mu) := by
    rw [List.any_eq_false] at hc
    intro u hu hne
    have hx := hc u hu
    simp [hne] at hx
    tauto
  rw [IngredientsUnique, List.pairwise_map]
  refine List.Pairwise.imp_of_mem ?_ h
  intro a b ha hb hab
  obtain ⟨hid, hpair⟩ := hab
  cases ha1 : (a.id == iid) <;> cases hb1 : (b.id == iid)
  · simp only [ha1, hb1, Bool.false_eq_true, if_false]
    exact ⟨hid, hpair⟩
  · have ha2 : a.id ≠ iid := by simpa using ha1
    have ha' := hc' a ha ha2
    simp only [ha1, hb1, Bool.false_eq_true, if_false, if_true]
    exact ⟨hid, fun hp => ha' ⟨hp.1, hp.2⟩⟩
  · have hb2 : b.id ≠ iid := by simpa using hb1
    have hb' := hc' b hb hb2
    simp only [ha1, hb1, Bool.false_eq_true, if_false, if_true]
    exact ⟨hid, fun hp => hb' ⟨hp.1.symm, hp.2.symm⟩⟩
  · have ha2 : a.id = iid := by simpa using ha1
    have hb2 : b.id = iid := by simpa using hb1
    exact absurd (ha2.trans hb2.symm) hid

/-- Every successful model operation preserves the combined invariant. -/
theorem step_inv {db db' : DB} (h : Step db db') (hi : Inv db) : Inv db' := by
  obtain ⟨ht, hg, hbr, hbi⟩ := hi
  cases h with
  | newUser u _ hop =>
    obtain rfl := createUser_ok hop
    exact ⟨ht, hg, hbr, hbi⟩
  | newTag t _ hop =>
    obtain ⟨hv, hc, rfl⟩ := createTag_ok hop
    exact ⟨tagsUnique_append ht hc, hg, hbr, hbi⟩
  | newMeasurementUnit m _ hop =>
    obtain rfl := createMeasurementUnit_ok hop
    exact ⟨ht, hg, hbr, hbi⟩
  | newIngredient i _ hop =>
    obtain ⟨hv, hc, rfl⟩ := createIngredient_ok hop
    exact ⟨ht, ingredientsUnique_append hg hc, hbr, hbi⟩
  | newRecipe r now _ hop =>
    obtain ⟨hv, rfl⟩ := createRecipe_ok hop
    refine ⟨ht, hg, ?_, hbi⟩
    intro x hx
    rcases List.mem_append.1 hx with hx | hx
    · exact hbr x hx
    · rw [List.mem_singleton] at hx
      subst hx
      exact cooking_time_bounds hv
  | newRecipeTag rt _ hop =>
    obtain rfl := createRecipeTag_ok hop
    exact ⟨ht, hg, hbr, hbi⟩
  | newRecipeIngredient ri _ hop =>
    obtain ⟨hv, rfl⟩ := createRecipeIngredient_ok hop
    refine ⟨ht, hg, hbr, ?_⟩
    intro x hx
    rcases List.mem_append.1 hx with hx | hx
    · exact hbi x hx
    · rw [List.mem_singleton] at hx
      subst hx
      exact amount_bounds hv
  | newFavorite f now _ hop =>
    obtain rfl := createFavorite_ok hop
    exact ⟨ht, hg, hbr, hbi⟩
  | newCart c now _ hop =>
    obtain rfl := createCart_ok hop
    exact ⟨ht, hg, hbr, hbi⟩
  | modTag tid nm col sl _ hop =>
    obtain ⟨hv, hc, rfl⟩ := updateTag_ok hop
    exact ⟨tagsUnique_update ht hc, hg, hbr, hbi⟩
  | modIngredient iid nm mu _ hop =>
    obtain ⟨hv, hc, rfl⟩ := updateIngredient_ok hop
    exact ⟨ht, ingredientsUnique_update hg hc, hbr, hbi⟩
  | modRecipe rid nm tx im ct now _ hop =>
    obtain ⟨hv, rfl⟩ := updateRecipe_ok hop
    refine ⟨ht, hg, ?_, hbi⟩
    intro x hx
    rcases List.mem_map.1 hx with ⟨u, hu, rfl⟩
    by_cases hid : (u.id == rid) = true
    · simp only [hid, if_true]
      exact cooking_time_bounds hv
    · simp only [hid, if_false]
      exact hbr u hu
  | modRecipeIngredientAmount riid v _ hop =>
    obtain ⟨hv, rfl⟩ := updateRecipeIngredientAmount_ok hop
    refine ⟨ht, hg, hbr, ?_⟩
    intro x hx
    rcases List.mem_map.1 hx with ⟨u, hu, rfl⟩
    by_cases hid : (u.id == riid) = true
    · simp only [hid, if_true]
      exact amount_bounds hv
    · simp only [hid, if_false]
      exact hbi u hu
  | delUser uid =>
    refine ⟨ht, hg, ?_, ?_⟩
    · intro x hx
      exact hbr x (List.mem_of_mem_filter hx)
    · intro x hx
      exact hbi x (List.mem_of_mem_filter hx)
  | delTag tid =>
    exact ⟨List.Pairwise.filter _ ht, hg, hbr, hbi⟩
  | delMeasurementUnit mid _ hop =>
    obtain rfl := deleteMeasurementUnit_ok hop
    exact ⟨ht, hg, hbr, hbi⟩
  | delIngredient iid =>
    refine ⟨ht, List.Pairwise.filter _ hg, hbr, ?_⟩
    intro x hx
    exact hbi x (List.mem_of_mem_filter hx)
  | delRecipe rid =>
    refine ⟨ht, hg, ?_, ?_⟩
    · intro x hx
      exact hbr x (List.mem_of_mem_filter hx)
    · intro x hx
      exact hbi x (List.mem_of_mem_filter hx)
  | delRecipeTagRow rtid =>
    exact ⟨ht, hg, hbr, hbi⟩
  | delRecipeIngredientRow riid =>
    refine ⟨ht, hg, hbr, ?_⟩
    intro x hx
    exact hbi x (List.mem_of_mem_filter hx)
  | delFavorite fid =>
    exact ⟨ht, hg, hbr, hbi⟩
  | delCart cid =>
    exact ⟨ht, hg, hbr, hbi⟩

/-- The combined invariant holds in every reachable database state. -/
theorem reachable_inv {db : DB} (h : Reachable db) : Inv db := by
  induction h with
  | refl =>
    exact ⟨List.Pairwise.nil, List.Pairwise.nil, by simp [DB.empty], by simp [DB.empty]⟩
  | tail _ hstep ih => exact step_inv hstep ih

/-! ### Helper lemmas on failing writes -/

theorem positiveSmallIntValid_eq_false {v : Int}
    (h : v < 0 ∨ 32767 < v) : positiveSmallIntValid v = false := by
  simp [positiveSmallIntValid]
  omega

theorem recipeFieldsValid_eq_false {nm tx im : String} {ct : Int}
    (h : positiveSmallIntValid ct = false) :
    recipeFieldsValid nm tx im ct = false := by
  simp [recipeFieldsValid, h]

theorem amountValid_eq_false {v : Int}
    (h : positiveSmallIntValid v = false) : amountValid v = false := by
  simp [amountValid, h]

theorem createRecipe_invalid {db : DB} {r : Recipe} {now : Nat}
    (h : recipeFieldsValid r.name r.text r.image r.cooking_time = false) :
    createRecipe db r now = Except.error DBError.validationError := by
  unfold createRecipe
  rw [h]
  simp

theorem updateRecipe_invalid {db : DB} {rid : Nat} {nm tx im : String}
    {ct : Int} {now : Nat}
    (he : db.recipes.any (fun u => u.id == rid) = true)
    (h : recipeFieldsValid nm tx im ct = false) :
    updateRecipe db rid nm tx im ct now = Except.error DBError.validationError := by
  unfold updateRecipe
  rw [he, h]
  simp

theorem createRecipeIngredient_invalid {db : DB} {ri : RecipeIngredient}
    (h : amountValid ri.amount = false) :
    createRecipeIngredient db ri = Except.error DBError.validationError := by
  unfold createRecipeIngredient
  rw [h]
  simp

theorem updateRecipeIngredientAmount_invalid {db : DB} {riid : Nat} {v : Int}
    (he : db.recipeIngredients.any (fun u => u.id == riid) = true)
    (h : amountValid v = false) :
    updateRecipeIngredientAmount db riid v = Except.error DBError.validationError := by
  unfold updateRecipeIngredientAmount
  rw [he, h]
  simp

/-! ### Concrete sample data -/

def unitGram : MeasurementUnit := { id := 1, name := "gram" }

def ingSalt : Ingredient := { id := 1, name := "salt", measurement_unit := 1 }

def tagRed : Tag := { id := 1, name := "red", color := "#f00", slug := "red" }

def recipeSoup : Recipe :=
  { id := 1, author := 1, name := "soup", text := "boil water",
    image := "soup.png", cooking_time := 10, created_at := 3, updated_at := 3 }

def dbOneUser : DB := { DB.empty with users := [1] }

def dbUnit : DB := { DB.empty with units := [unitGram] }

def dbUnitIng : DB := { dbUnit with ingredients := [ingSalt] }

def dbRed : DB := { DB.empty with tags := [tagRed] }

def dbSoup : DB := { dbOneUser with recipes := [recipeSoup] }

def dbKitchen : DB :=
  { DB.empty with
    users := [1]
    units := [unitGram]
    ingredients := [ingSalt]
    recipes := [recipeSoup] }

def favSoup : FavoriteRecipe := { id := 1, user := 1, recipe := 1, created_at := 7 }

def cartSoup : ShoppingCart := { id := 1, user := 1, recipe := 1, created_at := 8 }

def dbFav : DB := { dbSoup with favorites := [favSoup] }

def dbFavCart : DB := { dbFav with carts := [cartSoup] }

theorem reachable_dbRed : Reachable dbRed :=
  Relation.ReflTransGen.single (Step.newTag DB.empty tagRed dbRed rfl)

theorem reachable_dbUnitIng : Reachable dbUnitIng :=
  Relation.ReflTransGen.tail
    (Relation.ReflTransGen.single
      (Step.newMeasurementUnit DB.empty unitGram dbUnit rfl))
    (Step.newIngredient dbUnit ingSalt dbUnitIng rfl)

theorem reachable_dbFavCart : Reachable dbFavCart :=
  Relation.ReflTransGen.tail
    (Relation.ReflTransGen.tail
      (Relation.ReflTransGen.tail
        (Relation.ReflTransGen.single (Step.newUser DB.empty 1 dbOneUser rfl))
        (Step.newRecipe dbOneUser recipeSoup 3 dbSoup rfl))
      (Step.newFavorite dbSoup favSoup 7 dbFav rfl))
    (Step.newCart dbFav cartSoup 8 dbFavCart rfl)

/-! ### The claims -/

/-- Claim C1, counterexample. The claim states that every attempted Recipe
create with `cooking_time ≤ 0` — in particular `cooking_time = 0` — fails
field validation.  In the source `cooking_time` is a bare
`PositiveSmallIntegerField()` with no `MinValueValidator(1)` (contrast
`RecipeIngredient.amount`), and that field type accepts 0, so a create with
`cooking_time = 0` succeeds. -/
theorem C1_counterexample :
    ({ recipeSoup with cooking_time := 0 } : Recipe).cooking_time = 0 ∧
      createRecipe dbOneUser { recipeSoup with cooking_time := 0 } 5 =
        Except.ok { dbOneUser with recipes := [{ recipeSoup with cooking_time := 0, created_at := 5, updated_at := 5 }] } :=
  ⟨rfl, rfl⟩

/-- Claim C1, amended. A Recipe create or update fails with a validation
error before persistence when the supplied `cooking_time` is negative or
exceeds 32767; `cooking_time = 0` is accepted by field validation (the
field's range is 0..32767), so only the negative side of "not a positive
integer" is rejected. -/
theorem C1_cooking_time_validation :
    (∀ (db : DB) (r : Recipe) (now : Nat),
      (r.cooking_time < 0 ∨ 32767 < r.cooking_time) →
      createRecipe db r now = Except.error DBError.validationError) ∧
    (∀ (db : DB) (rid : Nat) (nm tx im : String) (ct : Int) (now : Nat),
      db.recipes.any (fun u => u.id == rid) = true →
      (ct < 0 ∨ 32767 < ct) →
      updateRecipe db rid nm tx im ct now = Except.error DBError.validationError) ∧
    (∀ nm tx im : String,
      recipeFieldsValid nm tx im 0 =
        (charFieldValid 200 nm && decide (0 < tx.length) && decide (0 < im.length))) := by
  refine ⟨?_, ?_, ?_⟩
  · intro db r now h
    exact createRecipe_invalid
      (recipeFieldsValid_eq_false (positiveSmallIntValid_eq_false h))
  · intro db rid nm tx im ct now he h
    exact updateRecipe_invalid he
      (recipeFieldsValid_eq_false (positiveSmallIntValid_eq_false h))
  · intro nm tx im
    simp [recipeFieldsValid, positiveSmallIntValid]

/-- Claim C1, witness. The amended theorem applied at a concrete negative
cooking time. -/
theorem C1_witness :
    createRecipe dbOneUser { recipeSoup with cooking_time := -1 } 5 =
      Except.error DBError.validationError :=
  C1_cooking_time_validation.1 dbOneUser { recipeSoup with cooking_time := -1 } 5
    (Or.inl (by decide))

theorem not_contains_singleton (a b : Nat) : (!([b].contains a)) = (a != b) := by
  by_cases h : a = b <;> simp [h, bne]

/-- Claim C2. Deleting a Recipe removes exactly the `RecipeIngredient`,
`RecipeTag`, `FavoriteRecipe` and `ShoppingCart` rows whose `recipe` field
references it (and the recipe row itself), and leaves the `Ingredient` and
`Tag` tables unchanged. -/
theorem C2_delete_recipe_frame (db : DB) (rid : Nat) :
    (deleteRecipe db rid).recipeIngredients
        = db.recipeIngredients.filter (fun x => x.recipe != rid) ∧
    (deleteRecipe db rid).recipeTags
        = db.recipeTags.filter (fun x => x.recipe != rid) ∧
    (deleteRecipe db rid).favorites
        = db.favorites.filter (fun x => x.recipe != rid) ∧
    (deleteRecipe db rid).carts
        = db.carts.filter (fun x => x.recipe != rid) ∧
    (deleteRecipe db rid).recipes = db.recipes.filter (fun x => x.id != rid) ∧
    (deleteRecipe db rid).ingredients = db.ingredients ∧
    (deleteRecipe db rid).tags = db.tags := by
  unfold deleteRecipe deleteRecipes
  refine ⟨?_, ?_, ?_, ?_, ?_, rfl, rfl⟩
  · exact List.filter_congr fun x _ => not_contains_singleton x.recipe rid
  · exact List.filter_congr fun x _ => not_contains_singleton x.recipe rid
  · exact List.filter_congr fun x _ => not_contains_singleton x.recipe rid
  · exact List.filter_congr fun x _ => not_contains_singleton x.recipe rid
  · exact List.filter_congr fun x _ => not_contains_singleton x.id rid

/-- Claim C3. Deleting a `MeasurementUnit` fails with a protect error iff
some `Ingredient` references it; with no referencing Ingredient the
deletion succeeds and removes the unit row. -/
theorem C3_unit_protect (db : DB) (mid : Nat) :
    ((∃ i ∈ db.ingredients, i.measurement_unit = mid) →
      deleteMeasurementUnit db mid = Except.error DBError.protectedError) ∧
    ((∀ i ∈ db.ingredients, i.measurement_unit ≠ mid) →
      deleteMeasurementUnit db mid =
        Except.ok { db with units := db.units.filter (fun m => m.id != mid) }) := by
  constructor
  · rintro ⟨i, hi, he⟩
    have hc : db.ingredients.any (fun i => i.measurement_unit == mid) = true :=
      List.any_eq_true.mpr ⟨i, hi, by simp [he]⟩
    unfold deleteMeasurementUnit
    rw [hc]
    rfl
  · intro h
    have hc : db.ingredients.any (fun i => i.measurement_unit == mid) = false := by
      rw [List.any_eq_false]
      intro x hx
      simpa using h x hx
    unfold deleteMeasurementUnit
    rw [hc]
    rfl

/-- Claim C3, witness. A referenced unit cannot be deleted; an unreferenced
one can. -/
theorem C3_witness :
    deleteMeasurementUnit dbUnitIng 1 = Except.error DBError.protectedError ∧
    deleteMeasurementUnit dbUnitIng 2 =
      Except.ok { dbUnitIng with units := dbUnitIng.units.filter (fun m => m.id != 2) } :=
  ⟨(C3_unit_protect dbUnitIng 1).1 ⟨ingSalt, by decide, rfl⟩,
   (C3_unit_protect dbUnitIng 2).2 (by decide)⟩

/-- Claim C4. Deleting a user removes the user's recipes, every join /
favorite / cart row referencing one of those recipes, and every favorite /
cart row whose `user` is the deleted user (the recipe-id hypothesis is
primary-key uniqueness, which every reachable state satisfies). -/
theorem C4_delete_user_cascade (db : DB) (uid : UserId)
    (hids : (db.recipes.map (fun r => r.id)).Nodup) :
    (deleteUser db uid).recipes = db.recipes.filter (fun r => r.author != uid) ∧
    (deleteUser db uid).recipeTags = db.recipeTags.filter
      (fun rt => !db.recipes.any (fun r => r.id == rt.recipe && r.author == uid)) ∧
    (deleteUser db uid).recipeIngredients = db.recipeIngredients.filter
      (fun ri => !db.recipes.any (fun r => r.id == ri.recipe && r.author == uid)) ∧
    (deleteUser db uid).favorites = db.favorites.filter
      (fun f => f.user != uid
        && !db.recipes.any (fun r => r.id == f.recipe && r.author == uid)) ∧
    (deleteUser db uid).carts = db.carts.filter
      (fun c => c.user != uid
        && !db.recipes.any (fun r => r.id == c.recipe && r.author == uid)) ∧
    (deleteUser db uid).users = db.users.filter (fun v => v != uid) := by
  have hmem : ∀ x : Nat,
      ((db.recipes.filter (fun r => r.author == uid)).map (fun r => r.id)).contains x
        = db.recipes.any (fun r => r.id == x && r.author == uid) := by
    intro x
    cases hx : db.recipes.any (fun r => r.id == x && r.author == uid) with
    | true =>
      rw [List.any_eq_true] at hx
      obtain ⟨r, hr, hcond⟩ := hx
      rw [Bool.and_eq_true, beq_iff_eq, beq_iff_eq] at hcond
      rw [List.contains_eq_any_beq, List.any_eq_true]
      refine ⟨r.id, ?_, ?_⟩
      · rw [List.mem_map]
        refine ⟨r, ?_, rfl⟩
        rw [List.mem_filter]
        refine ⟨hr, ?_⟩
        rw [beq_iff_eq]
        exact hcond.2
      · rw [beq_iff_eq]
        exact hcond.1.symm
    | false =>
      rw [List.any_eq_false] at hx
      rw [List.contains_eq_any_beq, List.any_eq_false]
      intro y hy
      rw [List.mem_map] at hy
      obtain ⟨r, hrf, rfl⟩ := hy
      rw [List.mem_filter] at hrf
      obtain ⟨hr, hau⟩ := hrf
      intro hbeq
      rw [beq_iff_eq] at hbeq hau
      refine absurd ?_ (hx r hr)
      rw [Bool.and_eq_true, beq_iff_eq, beq_iff_eq]
      exact ⟨hbeq.symm, hau⟩
  simp only [deleteUser, deleteRecipes]
  refine ⟨?_, ?_, ?_, ?_, ?_, trivial⟩
  · apply List.filter_congr
    intro r hr
    rw [hmem r.id]
    cases ha : (r.author == uid) with
    | true =>
      have hab : r.author = uid := by rw [beq_iff_eq] at ha; exact ha
      have hany : db.recipes.any (fun s => s.id == r.id && s.author == uid) = true := by
        rw [List.any_eq_true]
        refine ⟨r, hr, ?_⟩
        rw [Bool.and_eq_true, beq_iff_eq, beq_iff_eq]
        exact ⟨rfl, hab⟩
      rw [hany]
      simp [bne, ha]
    | false =>
      have hne : r.author ≠ uid := by simpa using ha
      have hany : db.recipes.any (fun s => s.id == r.id && s.author == uid) = false := by
        rw [List.any_eq_false]
        intro s hs hcond
        rw [Bool.and_eq_true, beq_iff_eq, beq_iff_eq] at hcond
        have hsr : s = r := List.inj_on_of_nodup_map hids hs hr hcond.1
        subst hsr
        exact hne hcond.2
      rw [hany]
      simp [bne, ha]
  · apply List.filter_congr
    intro rt _
    rw [hmem rt.recipe]
  · apply List.filter_congr
    intro ri _
    rw [hmem ri.recipe]
  · rw [List.filter_filter]
    apply List.filter_congr
    intro f _
    rw [hmem f.recipe]
  · rw [List.filter_filter]
    apply List.filter_congr
    intro c _
    rw [hmem c.recipe]

/-- Claim C4, witness. The cascade evaluated on a concrete state with one
user owning one recipe that has a favorite and a cart row. -/
theorem C4_witness :
    (deleteUser dbFavCart 1).recipes = [] ∧
    (deleteUser dbFavCart 1).favorites = [] ∧
    (deleteUser dbFavCart 1).carts = [] := by
  have h := C4_delete_user_cascade dbFavCart 1 (by decide)
  refine ⟨?_, ?_, ?_⟩
  · rw [h.1]; decide
  · rw [h.2.2.2.1]; decide
  · rw [h.2.2.2.2.1]; decide

/-- Claim C5. In every reachable state the `Tag` columns `name`, `color`,
`slug` are pairwise-unique across the table, and a create or update that
would collide with an existing row on any of the three columns fails with
a uniqueness-violation error. -/
theorem C5_tag_uniqueness :
    (∀ db : DB, Reachable db →
      db.tags.Pairwise (fun a b =>
        a.name ≠ b.name ∧ a.color ≠ b.color ∧ a.slug ≠ b.slug)) ∧
    (∀ (db : DB) (t : Tag),
      tagFieldsValid t.name t.color t.slug = true →
      db.tags.any (fun u =>
        u.name == t.name || u.color == t.color || u.slug == t.slug) = true →
      createTag db t = Except.error DBError.uniquenessError) ∧
    (∀ (db : DB) (tid : Nat) (nm col sl : String),
      db.tags.any (fun u => u.id == tid) = true →
      tagFieldsValid nm col sl = true →
      db.tags.any (fun u => u.id != tid
        && (u.name == nm || u.color == col || u.slug == sl)) = true →
      updateTag db tid nm col sl = Except.error DBError.uniquenessError) := by
  refine ⟨?_, ?_, ?_⟩
  · intro db h
    exact List.Pairwise.imp (fun hx => ⟨hx.2.1, hx.2.2.1, hx.2.2.2⟩)
      ((reachable_inv h).1)
  · intro db t hval hconf
    have hc : tagConflict db.tags t = true := by
      rw [List.any_eq_true] at hconf
      obtain ⟨u, hu, hcond⟩ := hconf
      rw [tagConflict, List.any_eq_true]
      refine ⟨u, hu, ?_⟩
      simp only [Bool.or_eq_true] at hcond ⊢
      tauto
    unfold createTag
    rw [hval, hc]
    rfl
  · intro db tid nm col sl he hval hconf
    unfold updateTag
    rw [he, hval, hconf]
    rfl

/-- Claim C5, witness. A reachable one-tag state is pairwise-unique, and a
second tag re-using the color is refused. -/
theorem C5_witness :
    dbRed.tags.Pairwise (fun a b =>
      a.name ≠ b.name ∧ a.color ≠ b.color ∧ a.slug ≠ b.slug) ∧
    createTag dbRed { id := 2, name := "dark", color := "#f00", slug := "dark" } =
      Except.error DBError.uniquenessError :=
  ⟨C5_tag_uniqueness.1 dbRed reachable_dbRed,
   C5_tag_uniqueness.2.1 dbRed { id := 2, name := "dark", color := "#f00", slug := "dark" }
     (by decide) (by decide)⟩

/-- Claim C6. The `(name, measurement_unit)` pair is unique across the
`Ingredient` table in every reachable state; inserting a duplicate pair
fails with a uniqueness error (an error returns no new state, so the
table is unchanged). -/
theorem C6_ingredient_pair_unique :
    (∀ db : DB, Reachable db →
      db.ingredients.Pairwise (fun a b =>
        ¬(a.name = b.name ∧ a.measurement_unit = b.measurement_unit))) ∧
    (∀ (db : DB) (i : Ingredient),
      ingredientFieldsValid i.name = true →
      db.ingredients.any (fun u =>
        u.name == i.name && u.measurement_unit == i.measurement_unit) = true →
      createIngredient db i = Except.error DBError.uniquenessError) := by
  constructor
  · intro db h
    exact List.Pairwise.imp (fun hx => hx.2) ((reachable_inv h).2.1)
  · intro db i hval hconf
    have hc : ingredientConflict db.ingredients i = true := by
      rw [List.any_eq_true] at hconf
      obtain ⟨u, hu, hcond⟩ := hconf
      rw [ingredientConflict, List.any_eq_true]
      refine ⟨u, hu, ?_⟩
      rw [Bool.or_eq_true]
      exact Or.inr hcond
    unfold createIngredient
    rw [hval, hc]
    rfl

/-- Claim C6, witness. A duplicate `("salt", gram)` ingredient is refused in
a reachable state already holding that pair. -/
theorem C6_witness :
    dbUnitIng.ingredients.Pairwise (fun a b =>
      ¬(a.name = b.name ∧ a.measurement_unit = b.measurement_unit)) ∧
    createIngredient dbUnitIng { id := 2, name := "salt", measurement_unit := 1 } =
      Except.error DBError.uniquenessError :=
  ⟨C6_ingredient_pair_unique.1 dbUnitIng reachable_dbUnitIng,
   C6_ingredient_pair_unique.2 dbUnitIng { id := 2, name := "salt", measurement_unit := 1 }
     (by decide) (by decide)⟩

/-- Claim C7. A `RecipeIngredient` with `amount = 0` fails the
`MinValueValidator(1)` check before persistence; with `amount = 1` and an
otherwise new and valid `(recipe, ingredient)` pair the insert succeeds. -/
theorem C7_amount_validation :
    (∀ (db : DB) (ri : RecipeIngredient), ri.amount = 0 →
      createRecipeIngredient db ri = Except.error DBError.validationError) ∧
    (∀ (db : DB) (ri : RecipeIngredient), ri.amount = 1 →
      recipeIngredientConflict db.recipeIngredients ri = false →
      db.recipes.any (fun r => r.id == ri.recipe) = true →
      db.ingredients.any (fun i => i.id == ri.ingredient) = true →
      createRecipeIngredient db ri =
        Except.ok { db with recipeIngredients := db.recipeIngredients ++ [ri] }) := by
  constructor
  · intro db ri h
    refine createRecipeIngredient_invalid ?_
    rw [h]
    rfl
  · intro db ri h hc hr hi
    unfold createRecipeIngredient
    rw [h, hc, hr, hi]
    rfl

/-- Claim C7, witness. Amount 0 is rejected and amount 1 accepted on a
concrete state holding the recipe and the ingredient. -/
theorem C7_witness :
    createRecipeIngredient dbKitchen { id := 1, recipe := 1, ingredient := 1, amount := 0 } =
      Except.error DBError.validationError ∧
    createRecipeIngredient dbKitchen { id := 1, recipe := 1, ingredient := 1, amount := 1 } =
      Except.ok { dbKitchen with recipeIngredients := dbKitchen.recipeIngredients ++ [{ id := 1, recipe := 1, ingredient := 1, amount := 1 }] } :=
  ⟨C7_amount_validation.1 dbKitchen { id := 1, recipe := 1, ingredient := 1, amount := 0 } rfl,
   C7_amount_validation.2 dbKitchen { id := 1, recipe := 1, ingredient := 1, amount := 1 }
     rfl (by decide) (by decide) (by decide)⟩

/-- Claim C8. Default listings follow `Meta.ordering`: recipes come newest
`created_at` first, tags and ingredients alphabetically by `name`, and
each listing is a permutation of its table. -/
theorem C8_default_ordering (db : DB) :
    (listRecipes db).Pairwise (fun a b => b.created_at ≤ a.created_at) ∧
    (listRecipes db).Perm db.recipes ∧
    (listTags db).Pairwise (fun a b => a.name ≤ b.name) ∧
    (listTags db).Perm db.tags ∧
    (listIngredients db).Pairwise (fun a b => a.name ≤ b.name) ∧
    (listIngredients db).Perm db.ingredients :=
  ⟨List.sorted_insertionSort recipeNewer db.recipes,
   List.perm_insertionSort recipeNewer db.recipes,
   List.sorted_insertionSort tagNameLe db.tags,
   List.perm_insertionSort tagNameLe db.tags,
   List.sorted_insertionSort ingredientNameLe db.ingredients,
   List.perm_insertionSort ingredientNameLe db.ingredients⟩

/-- Claim C9. A favorite row and a cart row with the same `(user, recipe)`
pair coexist in a reachable state, and the two tables are independent:
createFavorite commutes with any replacement of the cart table (so it
neither reads nor writes it), and symmetrically for createCart. -/
theorem C9_favorite_cart_independent :
    (∃ db' : DB, Reachable db' ∧
      (∃ f ∈ db'.favorites, ∃ c ∈ db'.carts,
        f.user = c.user ∧ f.recipe = c.recipe)) ∧
    (∀ (db : DB) (f : FavoriteRecipe) (now : Nat) (cs : List ShoppingCart),
      createFavorite { db with carts := cs } f now =
        (createFavorite db f now).map (fun d => { d with carts := cs })) ∧
    (∀ (db : DB) (c : ShoppingCart) (now : Nat) (fs : List FavoriteRecipe),
      createCart { db with favorites := fs } c now =
        (createCart db c now).map (fun d => { d with favorites := fs })) := by
  refine ⟨⟨dbFavCart, reachable_dbFavCart, favSoup, by decide, cartSoup, by decide,
    rfl, rfl⟩, ?_, ?_⟩
  · intro db f now cs
    unfold createFavorite
    cases h1 : favoriteConflict db.favorites f <;>
      cases h2 : db.users.any (fun v => v == f.user) <;>
        cases h3 : db.recipes.any (fun r => r.id == f.recipe) <;>
          simp [h1, h2, h3, Except.map]
  · intro db c now fs
    unfold createCart
    cases h1 : cartConflict db.carts c <;>
      cases h2 : db.users.any (fun v => v == c.user) <;>
        cases h3 : db.recipes.any (fun r => r.id == c.recipe) <;>
          simp [h1, h2, h3, Except.map]

/-- Claim C10. `cooking_time` and `amount` are `PositiveSmallIntegerField`s:
in every reachable state every stored value lies in 0..32767, and a create
or update writing a value above 32767 is rejected with a validation
error. -/
theorem C10_small_int_bounds :
    (∀ db : DB, Reachable db →
      (∀ r ∈ db.recipes, 0 ≤ r.cooking_time ∧ r.cooking_time ≤ 32767) ∧
      (∀ ri ∈ db.recipeIngredients, 0 ≤ ri.amount ∧ ri.amount ≤ 32767)) ∧
    (∀ (db : DB) (r : Recipe) (now : Nat), 32767 < r.cooking_time →
      createRecipe db r now = Except.error DBError.validationError) ∧
    (∀ (db : DB) (rid : Nat) (nm tx im : String) (ct : Int) (now : Nat),
      db.recipes.any (fun u => u.id == rid) = true → 32767 < ct →
      updateRecipe db rid nm tx im ct now = Except.error DBError.validationError) ∧
    (∀ (db : DB) (ri : RecipeIngredient), 32767 < ri.amount →
      createRecipeIngredient db ri = Except.error DBError.validationError) ∧
    (∀ (db : DB) (riid : Nat) (v : Int),
      db.recipeIngredients.any (fun u => u.id == riid) = true → 32767 < v →
      updateRecipeIngredientAmount db riid v = Except.error DBError.validationError) := by
  refine ⟨?_, ?_, ?_, ?_, ?_⟩
  · intro db h
    exact ⟨(reachable_inv h).2.2.1, (reachable_inv h).2.2.2⟩
  · intro db r now h
    exact createRecipe_invalid (recipeFieldsValid_eq_false
      (positiveSmallIntValid_eq_false (Or.inr h)))
  · intro db rid nm tx im ct now he h
    exact updateRecipe_invalid he (recipeFieldsValid_eq_false
      (positiveSmallIntValid_eq_false (Or.inr h)))
  · intro db ri h
    exact createRecipeIngredient_invalid (amountValid_eq_false
      (positiveSmallIntValid_eq_false (Or.inr h)))
  · intro db riid v he h
    exact updateRecipeIngredientAmount_invalid he (amountValid_eq_false
      (positiveSmallIntValid_eq_false (Or.inr h)))

/-- Claim C10, witness. The bound invariant on a concrete reachable state,
and a concrete rejected over-bound create. -/
theorem C10_witness :
    (∀ r ∈ dbFavCart.recipes, 0 ≤ r.cooking_time ∧ r.cooking_time ≤ 32767) ∧
    createRecipe dbOneUser { recipeSoup with cooking_time := 40000 } 5 =
      Except.error DBError.validationError :=
  ⟨(C10_small_int_bounds.1 dbFavCart reachable_dbFavCart).1,
   C10_small_int_bounds.2.1 dbOneUser { recipeSoup with cooking_time := 40000 } 5 (by decide)⟩

end Foodgram
